import Mathlib

/-!
Shallow embedding of `src/message/fetchActions.js` from zulip-mobile:
the message-fetch coordinator, retry wrapper and bootstrap orchestrator.

Async thunks become pure functions parameterised by the outcomes of their
remote calls; the `dispatch`ed Redux actions and the issued remote calls are
collected into an explicit event trace.
-/

namespace Zulip

/-- An error raised by a remote call.  The classification predicate
`isClientError` (from `api/apiErrors`, outside the embedded file) is
modelled from the spec: the *terminal* class is "the operation's own
validation of the call, e.g., a client-addressing/authorization fault"
(an HTTP 4xx); everything else is transient. -/
structure Err where
  isClientError : Bool
  deriving DecidableEq, Repr

/-- Modelled from the spec: a Scope (narrow) is "an opaque identifier for a
conversation view", with structural equality; the distinguished
`ALL_PRIVATE_NARROW` scope denotes "all private messages". -/
inductive Narrow where
  | allPrivate
  | scope (id : Nat)
  deriving DecidableEq, Repr

/-- `ALL_PRIVATE_NARROW` from `utils/narrow`. -/
def ALL_PRIVATE_NARROW : Narrow := Narrow.allPrivate

/-- Modelled from the spec: the translation of a scope "into the remote
call's addressing form" (`apiNarrowOfNarrow` from `utils/narrow`); the core
treats the result as opaque, so it is embedded as the identity. -/
def apiNarrowOfNarrow (n : Narrow) : Narrow := n

/-- Modelled from the spec: an anchor is "a message id or symbolic marker
("first unread", "newest")"; `firstUnread` embeds `FIRST_UNREAD_ANCHOR` and
`newest` embeds `LAST_MESSAGE_ANCHOR` from the `anchor` module. -/
inductive Anchor where
  | messageId (id : Nat)
  | firstUnread
  | newest
  deriving DecidableEq, Repr

def FIRST_UNREAD_ANCHOR : Anchor := Anchor.firstUnread

def LAST_MESSAGE_ANCHOR : Anchor := Anchor.newest

/-- Modelled from the spec: `config.messagesPerRequest`, the per-page
message count `P`; the spec fixes `P = 50`. -/
def messagesPerRequest : Nat := 50

/-- Modelled from the spec: the minimum server version supporting the
dedicated recent-private-messages endpoint
(`MIN_RECENTPMS_SERVER_VERSION` from `pm-conversations`); versions are
embedded as a comparable numeric value. -/
def MIN_RECENTPMS_SERVER_VERSION : Nat := 21

/-- The response of `api.getMessages`: messages are opaque payloads,
embedded by their ids. -/
structure GetMessagesResult where
  messages : List Nat
  found_newest : Bool
  found_oldest : Bool
  deriving DecidableEq, Repr

/-- The fields of the registration (`api.registerForEvents`) response that
the embedded code reads. -/
structure InitData where
  queue_id : Nat
  last_event_id : Nat
  deriving DecidableEq, Repr

/-- The field of the `api.getServerSettings` response that the embedded
code reads; the version string is embedded as the comparable value the
`ZulipVersion` wrapper yields. -/
structure ServerSettings where
  zulip_version : Nat
  deriving DecidableEq, Repr

/-- The argument record of `fetchMessages`. -/
structure FetchArgs where
  narrow : Narrow
  anchor : Anchor
  numBefore : Nat
  numAfter : Nat
  deriving DecidableEq, Repr

/-- The arguments `api.getMessages` is invoked with. -/
structure GetMessagesArgs where
  narrow : Narrow
  anchor : Anchor
  numBefore : Nat
  numAfter : Nat
  useFirstUnread : Bool
  deriving DecidableEq, Repr

/-- The Redux actions dispatched by the embedded file. -/
inductive Action where
  | messageFetchStart (narrow : Narrow) (numBefore numAfter : Nat)
  | messageFetchError (narrow : Narrow) (error : Err)
  | messageFetchComplete (messages : List Nat) (narrow : Narrow) (anchor : Anchor)
      (numBefore numAfter : Nat) (foundNewest foundOldest : Bool) (ownUserId : Nat)
  | initialFetchStart
  | initialFetchComplete
  | realmInit (data : InitData) (serverVersion : Nat)
  | startEventPolling (queueId lastEventId : Nat)
  | logout
  | sendOutbox
  | initNotifications
  deriving DecidableEq, Repr

/-- One step of a run's observable behaviour: a dispatched action or an
issued `api.getMessages` call. -/
inductive Event where
  | action (a : Action)
  | getMessagesCall (args : GetMessagesArgs)
  deriving DecidableEq, Repr

/-- The `api.getMessages` calls occurring in a trace. -/
def getMessagesCallsOf (tr : List Event) : List GetMessagesArgs :=
  tr.filterMap fun e =>
    match e with
    | Event.getMessagesCall args => some args
    | Event.action _ => none

/-- The dispatched actions occurring in a trace. -/
def actionsOf (tr : List Event) : List Action :=
  tr.filterMap fun e =>
    match e with
    | Event.action a => some a
    | Event.getMessagesCall _ => none

/-- Per-scope in-flight flags (`getFetchingForNarrow`). -/
structure Fetching where
  older : Bool
  newer : Bool
  deriving DecidableEq, Repr

/-- Per-scope caught-up flags (`getCaughtUpForNarrow`). -/
structure CaughtUp where
  older : Bool
  newer : Bool
  deriving DecidableEq, Repr

/-- The slice of the Redux `GlobalState` that the embedded code reads
through its selectors. -/
structure GlobalState where
  needsInitialFetch : Bool
  fetching : Narrow → Fetching
  caughtUp : Narrow → CaughtUp
  firstMessageId : Narrow → Option Nat
  lastMessageId : Narrow → Option Nat

def getFetchingForNarrow (state : GlobalState) (narrow : Narrow) : Fetching :=
  state.fetching narrow

def getCaughtUpForNarrow (state : GlobalState) (narrow : Narrow) : CaughtUp :=
  state.caughtUp narrow

def getFirstMessageId (state : GlobalState) (narrow : Narrow) : Option Nat :=
  state.firstMessageId narrow

def getLastMessageId (state : GlobalState) (narrow : Narrow) : Option Nat :=
  state.lastMessageId narrow

/-!  `tryFetch` (lines 261-283): the backoff retrier.  The wrapped
`func` is embedded by the list of outcomes its successive invocations
would produce.  The result is `none` when the given outcomes are
exhausted with the loop still running (the loop never exits on its own
after transient failures), and otherwise the returned or re-raised
outcome paired with the number of `backoffMachine.wait()` calls made. -/

def tryFetch {T : Type} : List (Except Err T) → Option (Except Err T × Nat)
  | [] => none
  | Except.ok v :: _ => some (Except.ok v, 0)
  | Except.error e :: rest =>
    if e.isClientError then
      some (Except.error e, 0)
    else
      match tryFetch rest with
      | none => none
      | some (r, n) => some (r, n + 1)

/-- The settled outcome of `tryFetch`, discarding the wait count. -/
def tryFetchResult {T : Type} (outcomes : List (Except Err T)) : Option (Except Err T) :=
  (tryFetch outcomes).map Prod.fst

/-- The `api.getMessages` argument record built inside `fetchMessages`
(lines 99-103): the fetch args with the scope translated to addressing
form and the `useFirstUnread` flag set iff the anchor is the first-unread
symbolic anchor. -/
def callArgsOf (fetchArgs : FetchArgs) : GetMessagesArgs :=
  { narrow := apiNarrowOfNarrow fetchArgs.narrow
    anchor := fetchArgs.anchor
    numBefore := fetchArgs.numBefore
    numAfter := fetchArgs.numAfter
    useFirstUnread := fetchArgs.anchor == FIRST_UNREAD_ANCHOR }

/-!  `fetchMessages` (lines 91-123): the fetch primitive.  Its single
remote call is embedded by the outcome `apiResult` that call produces;
`ownUserId` is the value of `getOwnUserId (getState ())`.  Returned are
the run's event trace and the promise outcome. -/

def fetchMessages (fetchArgs : FetchArgs) (ownUserId : Nat)
    (apiResult : Except Err GetMessagesResult) : List Event × Except Err (List Nat) :=
  let start := Event.action (Action.messageFetchStart fetchArgs.narrow
    fetchArgs.numBefore fetchArgs.numAfter)
  let call := Event.getMessagesCall (callArgsOf fetchArgs)
  match apiResult with
  | Except.ok r =>
    ([start, call,
      Event.action (Action.messageFetchComplete r.messages fetchArgs.narrow
        fetchArgs.anchor fetchArgs.numBefore fetchArgs.numAfter
        r.found_newest r.found_oldest ownUserId)],
     Except.ok r.messages)
  | Except.error e =>
    ([start, call, Event.action (Action.messageFetchError fetchArgs.narrow e)],
     Except.error e)

/-!  `fetchOlder` (lines 125-142) and `fetchNewer` (lines 144-161): the
guarded directional fetches.  The `Option FetchArgs` value is the
`fetchMessages` dispatch they perform, `none` when the guard suppresses
it; the `Run` variants give the run's full event trace, given the outcome
the dispatched fetch's remote call would produce. -/

def fetchOlder (narrow : Narrow) (state : GlobalState) : Option FetchArgs :=
  let firstMessageId := getFirstMessageId state narrow
  let caughtUp := getCaughtUpForNarrow state narrow
  let fetching := getFetchingForNarrow state narrow
  let needsInitialFetch := state.needsInitialFetch
  match firstMessageId with
  | some fid =>
    if !needsInitialFetch && !fetching.older && !caughtUp.older then
      some { narrow := narrow, anchor := Anchor.messageId fid
             numBefore := messagesPerRequest, numAfter := 0 }
    else
      none
  | none => none

def fetchOlderRun (narrow : Narrow) (state : GlobalState) (ownUserId : Nat)
    (apiResult : Except Err GetMessagesResult) : List Event :=
  match fetchOlder narrow state with
  | none => []
  | some args => (fetchMessages args ownUserId apiResult).1

def fetchNewer (narrow : Narrow) (state : GlobalState) : Option FetchArgs :=
  let lastMessageId := getLastMessageId state narrow
  let caughtUp := getCaughtUpForNarrow state narrow
  let fetching := getFetchingForNarrow state narrow
  let needsInitialFetch := state.needsInitialFetch
  match lastMessageId with
  | some lid =>
    if !needsInitialFetch && !fetching.newer && !caughtUp.newer then
      some { narrow := narrow, anchor := Anchor.messageId lid
             numBefore := 0, numAfter := messagesPerRequest }
    else
      none
  | none => none

def fetchNewerRun (narrow : Narrow) (state : GlobalState) (ownUserId : Nat)
    (apiResult : Except Err GetMessagesResult) : List Event :=
  match fetchNewer narrow state with
  | none => []
  | some args => (fetchMessages args ownUserId apiResult).1

/-- `isFetchNeededAtAnchor` (lines 172-182). -/
def isFetchNeededAtAnchor (state : GlobalState) (narrow : Narrow)
    (_anchor : Anchor) : Bool :=
  let caughtUp := getCaughtUpForNarrow state narrow
  !(caughtUp.newer && caughtUp.older)

/-!  `fetchMessagesInNarrow` (lines 204-219): the centering fetch.  The
`Option FetchArgs` value is the `fetchMessages` dispatch it performs,
`none` when it resolves to `undefined` without fetching; the source's
default argument `anchor = FIRST_UNREAD_ANCHOR` is `Default`. -/

def fetchMessagesInNarrow (state : GlobalState) (narrow : Narrow)
    (anchor : Anchor) : Option FetchArgs :=
  if !isFetchNeededAtAnchor state narrow anchor then
    none
  else
    some { narrow := narrow, anchor := anchor
           numBefore := messagesPerRequest / 2
           numAfter := messagesPerRequest / 2 }

def fetchMessagesInNarrowDefault (state : GlobalState) (narrow : Narrow) :
    Option FetchArgs :=
  fetchMessagesInNarrow state narrow FIRST_UNREAD_ANCHOR

def fetchMessagesInNarrowRun (state : GlobalState) (narrow : Narrow)
    (anchor : Anchor) (ownUserId : Nat)
    (apiResult : Except Err GetMessagesResult) : List Event :=
  match fetchMessagesInNarrow state narrow anchor with
  | none => []
  | some args => (fetchMessages args ownUserId apiResult).1

/-- The `api.getMessages` argument record of the legacy fetch
(lines 234-239); the source passes no `useFirstUnread`, so the flag is
absent (false). -/
def pmFetchCallArgs : GetMessagesArgs :=
  { narrow := apiNarrowOfNarrow ALL_PRIVATE_NARROW
    anchor := LAST_MESSAGE_ANCHOR
    numBefore := 100
    numAfter := 0
    useFirstUnread := false }

/-!  `fetchPrivateMessages` (lines 232-252): the legacy recent-PMs fetch.
On failure of the awaited remote call the thunk rejects before any
dispatch; on success it dispatches exactly one `messageFetchComplete`. -/

def fetchPrivateMessages (ownUserId : Nat)
    (apiResult : Except Err GetMessagesResult) : List Event × Except Err Unit :=
  let call := Event.getMessagesCall pmFetchCallArgs
  match apiResult with
  | Except.error e => ([call], Except.error e)
  | Except.ok r =>
    ([call,
      Event.action (Action.messageFetchComplete r.messages ALL_PRIVATE_NARROW
        LAST_MESSAGE_ANCHOR 100 0 r.found_newest r.found_oldest ownUserId)],
     Except.ok ())

/-- `Promise.all` over the two bootstrap calls (lines 314-339): `none`
when it never settles (a branch still retrying and no rejection yet
observed), the first rejection otherwise, or both fulfilments. -/
def promiseAll2 {A B : Type} :
    Option (Except Err A) → Option (Except Err B) → Option (Except Err (A × B))
  | some (Except.error e), _ => some (Except.error e)
  | some (Except.ok _), some (Except.error e) => some (Except.error e)
  | some (Except.ok a), some (Except.ok b) => some (Except.ok (a, b))
  | some (Except.ok _), none => none
  | none, some (Except.error e) => some (Except.error e)
  | none, some (Except.ok _) => none
  | none, none => none

/-!  `doInitialFetch` (lines 306-358): the bootstrap orchestrator.  The
two `tryFetch`-wrapped calls are embedded by the outcome lists of their
successive attempts; `pmApiResult` is the outcome the legacy fetch's
remote call would produce if issued.  Returned are the dispatched trace
and whether the run completed (`false` when a retry loop never settles).
The legacy-fetch dispatch on line 353 is not awaited, so the run
continues past it regardless of its outcome. -/

def doInitialFetch (regOutcomes : List (Except Err InitData))
    (settingsOutcomes : List (Except Err ServerSettings))
    (pmApiResult : Except Err GetMessagesResult) (ownUserId : Nat) :
    List Event × Bool :=
  let start := [Event.action Action.initialFetchStart]
  match promiseAll2 (tryFetchResult regOutcomes) (tryFetchResult settingsOutcomes) with
  | none => (start, false)
  | some (Except.error _) => (start ++ [Event.action Action.logout], true)
  | some (Except.ok (initData, serverSettings)) =>
    let serverVersion := serverSettings.zulip_version
    let pmEvents :=
      if !decide (MIN_RECENTPMS_SERVER_VERSION ≤ serverVersion) then
        (fetchPrivateMessages ownUserId pmApiResult).1
      else
        []
    (start ++
     [Event.action (Action.realmInit initData serverVersion),
      Event.action Action.initialFetchComplete,
      Event.action (Action.startEventPolling initData.queue_id initData.last_event_id)] ++
     pmEvents ++
     [Event.action Action.sendOutbox, Event.action Action.initNotifications],
     true)

/-!  Helper lemmas, shared by the claim theorems below. -/

/-- A terminal (client-class) error on the first attempt is re-raised at
once with zero waits. -/
theorem tryFetch_client_head {T : Type} (e : Err) (rest : List (Except Err T))
    (h : e.isClientError = true) :
    tryFetch (Except.error e :: rest) = some (Except.error e, 0) := by
  simp [tryFetch, h]

/-- Any run of transient failures followed by a success returns the
success, with one wait per transient failure. -/
theorem tryFetch_transient_prefix_ok {T : Type} (pre : List (Except Err T)) (v : T)
    (hpre : ∀ x ∈ pre, ∃ t, x = Except.error t ∧ t.isClientError = false) :
    tryFetch (pre ++ [Except.ok v]) = some (Except.ok v, pre.length) := by
  induction pre with
  | nil => simp [tryFetch]
  | cons x rest ih =>
    obtain ⟨t, rfl, ht⟩ := hpre x (by simp)
    have hrest := ih fun y hy => hpre y (by simp [hy])
    simp [tryFetch, ht, hrest]

/-- `tryFetch` only ever re-raises client-class errors. -/
theorem tryFetch_error_isClientError {T : Type} (l : List (Except Err T)) :
    ∀ (e : Err) (n : Nat),
      tryFetch l = some (Except.error e, n) → e.isClientError = true := by
  induction l with
  | nil => intro e n h; simp [tryFetch] at h
  | cons x rest ih =>
    intro e n h
    match x with
    | Except.ok v => simp [tryFetch] at h
    | Except.error t =>
      by_cases ht : t.isClientError
      · simp [tryFetch, ht] at h
        exact h.1 ▸ ht
      · simp [tryFetch, ht] at h
        match hm : tryFetch (T := T) rest with
        | none => rw [hm] at h; simp at h
        | some (r, m) =>
          rw [hm] at h
          simp at h
          exact ih e m (by rw [hm, h.1])

/-- A transient failure never ends the loop: it costs one wait and the
loop continues on the remaining attempts. -/
theorem tryFetch_transient_step {T : Type} (e : Err) (rest : List (Except Err T))
    (h : e.isClientError = false) :
    tryFetch (Except.error e :: rest) =
      (tryFetch rest).map (fun p => (p.1, p.2 + 1)) := by
  simp only [tryFetch, h, Bool.false_eq_true, if_false]
  match hm : tryFetch (T := T) rest with
  | none => simp
  | some (r, m) => simp

/-- Helper: the `fetchPrivateMessages` run issues exactly its one remote
call, whatever the outcome. -/
theorem fetchPrivateMessages_calls (own : Nat) (r : Except Err GetMessagesResult) :
    getMessagesCallsOf (fetchPrivateMessages own r).1 = [pmFetchCallArgs] := by
  cases r <;> simp [fetchPrivateMessages, getMessagesCallsOf]

/-- Helper: on a failed remote call, `fetchMessages` emits the error
signal and re-raises the same error. -/
theorem fetchMessages_error_surfaced (args : FetchArgs) (own : Nat) (e : Err) :
    Event.action (Action.messageFetchError args.narrow e)
      ∈ (fetchMessages args own (Except.error e)).1
  ∧ (fetchMessages args own (Except.error e)).2 = Except.error e := by
  simp [fetchMessages]

/-- Helper: when the fan-in of the two bootstrap calls rejects, the run
dispatches exactly start-then-logout and stops. -/
theorem doInitialFetch_error_trace (regOutcomes : List (Except Err InitData))
    (settingsOutcomes : List (Except Err ServerSettings))
    (pmApiResult : Except Err GetMessagesResult) (ownUserId : Nat) (e : Err)
    (h : promiseAll2 (tryFetchResult regOutcomes) (tryFetchResult settingsOutcomes) =
      some (Except.error e)) :
    doInitialFetch regOutcomes settingsOutcomes pmApiResult ownUserId =
      ([Event.action Action.initialFetchStart, Event.action Action.logout], true) := by
  simp [doInitialFetch, h]

/-- Helper: a rejection of either bootstrap branch rejects the fan-in,
whatever the state of the other branch. -/
theorem promiseAll2_error {A B : Type} (x : Option (Except Err A))
    (y : Option (Except Err B)) (e : Err)
    (h : x = some (Except.error e) ∨ y = some (Except.error e)) :
    ∃ e2, promiseAll2 x y = some (Except.error e2) := by
  rcases h with h | h
  · subst h
    match y with
    | none => exact ⟨e, rfl⟩
    | some (Except.ok _) => exact ⟨e, rfl⟩
    | some (Except.error _) => exact ⟨e, rfl⟩
  · subst h
    match x with
    | none => exact ⟨e, rfl⟩
    | some (Except.ok _) => exact ⟨e, rfl⟩
    | some (Except.error e2) => exact ⟨e2, rfl⟩

/-!  Claim theorems. -/

/-- C1: `tryFetch` re-raises a terminal-class (client) error immediately
with zero backoff waits; any finite number of transient failures followed
by a success yields the success value with one backoff wait per transient
failure; and no run of transient failures ever ends the loop with an
error (every error it raises is client-class). -/
theorem tryFetch_retry_policy :
    (∀ (T : Type) (e : Err) (rest : List (Except Err T)), e.isClientError = true →
        tryFetch (Except.error e :: rest) = some (Except.error e, 0))
  ∧ (∀ (T : Type) (pre : List (Except Err T)) (v : T),
        (∀ x ∈ pre, ∃ t, x = Except.error t ∧ t.isClientError = false) →
        tryFetch (pre ++ [Except.ok v]) = some (Except.ok v, pre.length))
  ∧ (∀ (T : Type) (l : List (Except Err T)) (e : Err) (n : Nat),
        tryFetch l = some (Except.error e, n) → e.isClientError = true) :=
  ⟨fun _ e rest h => tryFetch_client_head e rest h,
   fun _ pre v h => tryFetch_transient_prefix_ok pre v h,
   fun _ l e n h => tryFetch_error_isClientError l e n h⟩

/-- Witness for C1 at concrete inputs. -/
theorem tryFetch_retry_policy_witness :
    tryFetch [Except.error ⟨true⟩, Except.ok (3 : Nat)] = some (Except.error ⟨true⟩, 0)
  ∧ tryFetch ([Except.error ⟨false⟩, Except.error ⟨false⟩] ++ [Except.ok (7 : Nat)]) =
      some (Except.ok 7, 2)
  ∧ Err.isClientError ⟨true⟩ = true :=
  ⟨tryFetch_retry_policy.1 Nat ⟨true⟩ [Except.ok 3] rfl,
   tryFetch_retry_policy.2.1 Nat [Except.error ⟨false⟩, Except.error ⟨false⟩] 7
     (by intro x hx; simp at hx; exact ⟨⟨false⟩, by simp [hx]⟩),
   tryFetch_retry_policy.2.2 Nat [Except.error ⟨true⟩] ⟨true⟩ 0 rfl⟩

/-- C9: the fetch/no-fetch decision of `isFetchNeededAtAnchor` is
independent of the anchor argument, and equals the negation of (caught up
newer and caught up older). -/
theorem isFetchNeededAtAnchor_anchor_independent (state : GlobalState)
    (narrow : Narrow) (a1 a2 : Anchor) :
    isFetchNeededAtAnchor state narrow a1 = isFetchNeededAtAnchor state narrow a2
  ∧ isFetchNeededAtAnchor state narrow a1 =
      !((state.caughtUp narrow).newer && (state.caughtUp narrow).older) := by
  simp [isFetchNeededAtAnchor, getCaughtUpForNarrow]

/-- C7: while a scope's `fetchingNewer` flag is set, `fetchNewer` issues
no remote call and emits no signal: the dedup guard suppresses any second
newer-direction request until the flag is cleared. -/
theorem fetchNewer_dedup (narrow : Narrow) (state : GlobalState) (ownUserId : Nat)
    (apiResult : Except Err GetMessagesResult)
    (h : (state.fetching narrow).newer = true) :
    fetchNewer narrow state = none
  ∧ fetchNewerRun narrow state ownUserId apiResult = [] := by
  have hnone : fetchNewer narrow state = none := by
    unfold fetchNewer getLastMessageId getCaughtUpForNarrow getFetchingForNarrow
    cases state.lastMessageId narrow <;> simp [h]
  exact ⟨hnone, by simp [fetchNewerRun, hnone]⟩

/-- Witness for C7 at a concrete state. -/
theorem fetchNewer_dedup_witness :
    fetchNewer (Narrow.scope 0)
      ⟨false, fun _ => ⟨false, true⟩, fun _ => ⟨false, false⟩,
        fun _ => some 1, fun _ => some 9⟩ = none
  ∧ fetchNewerRun (Narrow.scope 0)
      ⟨false, fun _ => ⟨false, true⟩, fun _ => ⟨false, false⟩,
        fun _ => some 1, fun _ => some 9⟩ 2 (Except.error ⟨false⟩) = [] :=
  fetchNewer_dedup (Narrow.scope 0) _ 2 (Except.error ⟨false⟩) rfl

/-- C3: `fetchOlder` issues a fetch iff the session is not in its initial
fetch, the older in-flight flag is false, the older caught-up flag is
false and the first message id is known; when it fetches, the window is
anchor = firstMessageId, numBefore = messagesPerRequest, numAfter = 0;
otherwise the run performs no call and emits no signal. -/
theorem fetchOlder_guard (narrow : Narrow) (state : GlobalState) (ownUserId : Nat)
    (apiResult : Except Err GetMessagesResult) :
    ((fetchOlder narrow state).isSome = true ↔
        state.needsInitialFetch = false ∧ (state.fetching narrow).older = false ∧
        (state.caughtUp narrow).older = false ∧ (state.firstMessageId narrow).isSome = true)
  ∧ (∀ w, fetchOlder narrow state = some w →
        ∃ fid, state.firstMessageId narrow = some fid ∧
          w = { narrow := narrow, anchor := Anchor.messageId fid,
                numBefore := messagesPerRequest, numAfter := 0 })
  ∧ (fetchOlder narrow state = none →
        fetchOlderRun narrow state ownUserId apiResult = []) := by
  refine ⟨?_, ?_, ?_⟩
  · unfold fetchOlder getFirstMessageId getCaughtUpForNarrow getFetchingForNarrow
    cases hf : state.firstMessageId narrow with
    | none => simp
    | some fid =>
      by_cases h1 : state.needsInitialFetch <;>
        by_cases h2 : (state.fetching narrow).older <;>
        by_cases h3 : (state.caughtUp narrow).older <;>
        simp [h1, h2, h3]
  · intro w hw
    unfold fetchOlder getFirstMessageId getCaughtUpForNarrow getFetchingForNarrow at hw
    cases hf : state.firstMessageId narrow with
    | none => rw [hf] at hw; simp at hw
    | some fid =>
      simp only [hf] at hw
      by_cases hc : (!state.needsInitialFetch && !(state.fetching narrow).older &&
          !(state.caughtUp narrow).older) = true
      · simp only [if_pos hc] at hw
        exact ⟨fid, rfl, (Option.some_inj.mp hw).symm⟩
      · simp only [if_neg hc] at hw; simp at hw
  · intro hnone
    simp [fetchOlderRun, hnone]

/-- Witness for C3 at a concrete state. -/
theorem fetchOlder_guard_witness :
    ((fetchOlder (Narrow.scope 4)
        ⟨false, fun _ => ⟨false, false⟩, fun _ => ⟨false, false⟩,
          fun _ => some 1000, fun _ => some 2000⟩).isSome = true ↔
      False = False ∧ False = False ∧ False = False ∧ True = True)
  ∧ (∃ fid, (some 1000 : Option Nat) = some fid ∧
      ({ narrow := Narrow.scope 4, anchor := Anchor.messageId 1000,
         numBefore := messagesPerRequest, numAfter := 0 } : FetchArgs) =
      { narrow := Narrow.scope 4, anchor := Anchor.messageId fid,
        numBefore := messagesPerRequest, numAfter := 0 }) := by
  have h := fetchOlder_guard (Narrow.scope 4)
    ⟨false, fun _ => ⟨false, false⟩, fun _ => ⟨false, false⟩,
      fun _ => some 1000, fun _ => some 2000⟩ 7 (Except.error ⟨false⟩)
  refine ⟨by simp [h.1], ?_⟩
  obtain ⟨fid, hfid, hw⟩ := h.2.1 _ rfl
  exact ⟨fid, hfid, by rw [hw]⟩

/-- C4: `fetchMessagesInNarrow` performs no fetch exactly when both
caught-up flags are true; otherwise it dispatches exactly one centering
fetch with numBefore = numAfter = messagesPerRequest / 2 at the given
anchor, the anchor defaulting to the first-unread symbolic anchor. -/
theorem fetchMessagesInNarrow_centering (state : GlobalState) (narrow : Narrow)
    (anchor : Anchor) (ownUserId : Nat) (apiResult : Except Err GetMessagesResult) :
    (fetchMessagesInNarrow state narrow anchor = none ↔
        (state.caughtUp narrow).older = true ∧ (state.caughtUp narrow).newer = true)
  ∧ (∀ w, fetchMessagesInNarrow state narrow anchor = some w →
        w = { narrow := narrow, anchor := anchor,
              numBefore := messagesPerRequest / 2, numAfter := messagesPerRequest / 2 })
  ∧ (fetchMessagesInNarrow state narrow anchor = none →
        fetchMessagesInNarrowRun state narrow anchor ownUserId apiResult = [])
  ∧ (∀ w, fetchMessagesInNarrow state narrow anchor = some w →
        (getMessagesCallsOf
          (fetchMessagesInNarrowRun state narrow anchor ownUserId apiResult)).length = 1)
  ∧ fetchMessagesInNarrowDefault state narrow =
      fetchMessagesInNarrow state narrow FIRST_UNREAD_ANCHOR := by
  refine ⟨?_, ?_, ?_, ?_, rfl⟩
  · unfold fetchMessagesInNarrow isFetchNeededAtAnchor getCaughtUpForNarrow
    by_cases h1 : (state.caughtUp narrow).newer <;>
      by_cases h2 : (state.caughtUp narrow).older <;> simp [h1, h2]
  · intro w hw
    unfold fetchMessagesInNarrow at hw
    by_cases hc : !isFetchNeededAtAnchor state narrow anchor
    · rw [if_pos hc] at hw; simp at hw
    · rw [if_neg hc] at hw
      exact (Option.some_inj.mp hw).symm
  · intro hnone
    simp [fetchMessagesInNarrowRun, hnone]
  · intro w hw
    cases apiResult <;>
      simp [fetchMessagesInNarrowRun, hw, fetchMessages, getMessagesCallsOf]

/-- Witness for C4 at a concrete state. -/
theorem fetchMessagesInNarrow_centering_witness :
    (fetchMessagesInNarrow
        ⟨false, fun _ => ⟨false, false⟩, fun _ => ⟨true, true⟩,
          fun _ => some 1, fun _ => some 9⟩ (Narrow.scope 2) Anchor.firstUnread = none ↔
      true = true ∧ true = true)
  ∧ fetchMessagesInNarrowRun
      ⟨false, fun _ => ⟨false, false⟩, fun _ => ⟨true, true⟩,
        fun _ => some 1, fun _ => some 9⟩ (Narrow.scope 2) Anchor.firstUnread 7
      (Except.ok ⟨[1], true, true⟩) = [] := by
  have h := fetchMessagesInNarrow_centering
    ⟨false, fun _ => ⟨false, false⟩, fun _ => ⟨true, true⟩,
      fun _ => some 1, fun _ => some 9⟩ (Narrow.scope 2) Anchor.firstUnread 7
    (Except.ok ⟨[1], true, true⟩)
  exact ⟨h.1, h.2.2.1 (h.1.mpr ⟨rfl, rfl⟩)⟩

/-- C5: every `fetchMessages` run emits the start signal first and issues
exactly one remote call (never retrying); on success it emits exactly one
completion signal carrying the outcome attributed to the caller's own
user id and returns the messages; on failure it emits exactly one error
signal and re-raises the same error. -/
theorem fetchMessages_primitive (fetchArgs : FetchArgs) (ownUserId : Nat)
    (apiResult : Except Err GetMessagesResult) :
    (fetchMessages fetchArgs ownUserId apiResult).1.head? =
        some (Event.action (Action.messageFetchStart fetchArgs.narrow
          fetchArgs.numBefore fetchArgs.numAfter))
  ∧ getMessagesCallsOf (fetchMessages fetchArgs ownUserId apiResult).1 =
      [callArgsOf fetchArgs]
  ∧ (∀ r, apiResult = Except.ok r →
      (fetchMessages fetchArgs ownUserId apiResult).1 =
        [Event.action (Action.messageFetchStart fetchArgs.narrow
           fetchArgs.numBefore fetchArgs.numAfter),
         Event.getMessagesCall (callArgsOf fetchArgs),
         Event.action (Action.messageFetchComplete r.messages fetchArgs.narrow
           fetchArgs.anchor fetchArgs.numBefore fetchArgs.numAfter
           r.found_newest r.found_oldest ownUserId)]
      ∧ (fetchMessages fetchArgs ownUserId apiResult).2 = Except.ok r.messages)
  ∧ (∀ e, apiResult = Except.error e →
      (fetchMessages fetchArgs ownUserId apiResult).1 =
        [Event.action (Action.messageFetchStart fetchArgs.narrow
           fetchArgs.numBefore fetchArgs.numAfter),
         Event.getMessagesCall (callArgsOf fetchArgs),
         Event.action (Action.messageFetchError fetchArgs.narrow e)]
      ∧ (fetchMessages fetchArgs ownUserId apiResult).2 = Except.error e) := by
  refine ⟨?_, ?_, ?_, ?_⟩ <;>
    cases apiResult <;>
    simp [fetchMessages, getMessagesCallsOf]

/-- Witness for C5 at concrete inputs. -/
theorem fetchMessages_primitive_witness :
    (fetchMessages ⟨Narrow.scope 1, Anchor.messageId 5, 50, 0⟩ 2
        (Except.ok ⟨[4, 5], true, false⟩)).1 =
      [Event.action (Action.messageFetchStart (Narrow.scope 1) 50 0),
       Event.getMessagesCall (callArgsOf ⟨Narrow.scope 1, Anchor.messageId 5, 50, 0⟩),
       Event.action (Action.messageFetchComplete [4, 5] (Narrow.scope 1)
         (Anchor.messageId 5) 50 0 true false 2)]
  ∧ (fetchMessages ⟨Narrow.scope 1, Anchor.messageId 5, 50, 0⟩ 2
        (Except.ok ⟨[4, 5], true, false⟩)).2 = Except.ok [4, 5]
  ∧ (fetchMessages ⟨Narrow.scope 1, Anchor.messageId 5, 50, 0⟩ 2
        (Except.error ⟨true⟩)).2 = Except.error ⟨true⟩ := by
  refine ⟨?_, ?_, ?_⟩
  · exact ((fetchMessages_primitive ⟨Narrow.scope 1, Anchor.messageId 5, 50, 0⟩ 2
      (Except.ok ⟨[4, 5], true, false⟩)).2.2.1 ⟨[4, 5], true, false⟩ rfl).1
  · exact ((fetchMessages_primitive ⟨Narrow.scope 1, Anchor.messageId 5, 50, 0⟩ 2
      (Except.ok ⟨[4, 5], true, false⟩)).2.2.1 ⟨[4, 5], true, false⟩ rfl).2
  · exact ((fetchMessages_primitive ⟨Narrow.scope 1, Anchor.messageId 5, 50, 0⟩ 2
      (Except.error ⟨true⟩)).2.2.2 ⟨true⟩ rfl).2

/-- C10: the legacy `fetchPrivateMessages` run never dispatches a
fetch-start or fetch-error signal; on failure it dispatches nothing and
propagates the raised error; on success its only dispatch is the single
fetch-complete for the all-private-messages scope. -/
theorem fetchPrivateMessages_signals (ownUserId : Nat)
    (apiResult : Except Err GetMessagesResult) :
    (∀ n b a, Event.action (Action.messageFetchStart n b a)
        ∉ (fetchPrivateMessages ownUserId apiResult).1)
  ∧ (∀ n e, Event.action (Action.messageFetchError n e)
        ∉ (fetchPrivateMessages ownUserId apiResult).1)
  ∧ (∀ e, apiResult = Except.error e →
      actionsOf (fetchPrivateMessages ownUserId apiResult).1 = []
      ∧ (fetchPrivateMessages ownUserId apiResult).2 = Except.error e)
  ∧ (∀ r, apiResult = Except.ok r →
      actionsOf (fetchPrivateMessages ownUserId apiResult).1 =
        [Action.messageFetchComplete r.messages ALL_PRIVATE_NARROW
          LAST_MESSAGE_ANCHOR 100 0 r.found_newest r.found_oldest ownUserId]) := by
  refine ⟨?_, ?_, ?_, ?_⟩ <;>
    cases apiResult <;>
    simp [fetchPrivateMessages, actionsOf]

/-- Witness for C10 at concrete inputs. -/
theorem fetchPrivateMessages_signals_witness :
    (actionsOf (fetchPrivateMessages 3 (Except.error ⟨false⟩)).1 = []
      ∧ (fetchPrivateMessages 3 (Except.error ⟨false⟩)).2 = Except.error ⟨false⟩)
  ∧ actionsOf (fetchPrivateMessages 3 (Except.ok ⟨[8], false, true⟩)).1 =
      [Action.messageFetchComplete [8] ALL_PRIVATE_NARROW LAST_MESSAGE_ANCHOR
        100 0 false true 3] :=
  ⟨(fetchPrivateMessages_signals 3 (Except.error ⟨false⟩)).2.2.1 ⟨false⟩ rfl,
   (fetchPrivateMessages_signals 3 (Except.ok ⟨[8], false, true⟩)).2.2.2
     ⟨[8], false, true⟩ rfl⟩

/-- Helper: trace calls distribute over appended traces. -/
theorem getMessagesCallsOf_append (tr1 tr2 : List Event) :
    getMessagesCallsOf (tr1 ++ tr2) =
      getMessagesCallsOf tr1 ++ getMessagesCallsOf tr2 := by
  simp [getMessagesCallsOf]

/-- Helper: a dispatched action contributes no remote call. -/
theorem getMessagesCallsOf_cons_action (a : Action) (tr : List Event) :
    getMessagesCallsOf (Event.action a :: tr) = getMessagesCallsOf tr := by
  simp [getMessagesCallsOf]

/-- Helper: the empty trace has no calls. -/
theorem getMessagesCallsOf_nil : getMessagesCallsOf [] = [] := rfl

/-- Helper: the bootstrap run's full trace on fan-in success. -/
theorem doInitialFetch_ok_trace (regOutcomes : List (Except Err InitData))
    (settingsOutcomes : List (Except Err ServerSettings))
    (pmApiResult : Except Err GetMessagesResult) (ownUserId : Nat)
    (d : InitData) (s : ServerSettings)
    (hreg : tryFetchResult regOutcomes = some (Except.ok d))
    (hset : tryFetchResult settingsOutcomes = some (Except.ok s)) :
    doInitialFetch regOutcomes settingsOutcomes pmApiResult ownUserId =
      ([Event.action Action.initialFetchStart,
        Event.action (Action.realmInit d s.zulip_version),
        Event.action Action.initialFetchComplete,
        Event.action (Action.startEventPolling d.queue_id d.last_event_id)] ++
       (if !decide (MIN_RECENTPMS_SERVER_VERSION ≤ s.zulip_version) then
          (fetchPrivateMessages ownUserId pmApiResult).1
        else []) ++
       [Event.action Action.sendOutbox, Event.action Action.initNotifications],
       true) := by
  unfold doInitialFetch
  rw [hreg, hset]
  rfl

/-- C2: if either bootstrap branch propagates a terminal error out of its
retry wrapper, the orchestrator dispatches exactly start-then-logout and
stops: the run completes without ever applying the registration data,
emitting the completion signal, or starting the event stream. -/
theorem doInitialFetch_abort (regOutcomes : List (Except Err InitData))
    (settingsOutcomes : List (Except Err ServerSettings))
    (pmApiResult : Except Err GetMessagesResult) (ownUserId : Nat) (e : Err)
    (h : tryFetchResult regOutcomes = some (Except.error e) ∨
         tryFetchResult settingsOutcomes = some (Except.error e)) :
    (doInitialFetch regOutcomes settingsOutcomes pmApiResult ownUserId).1 =
        [Event.action Action.initialFetchStart, Event.action Action.logout]
  ∧ (doInitialFetch regOutcomes settingsOutcomes pmApiResult ownUserId).2 = true
  ∧ (∀ d v, Event.action (Action.realmInit d v)
        ∉ (doInitialFetch regOutcomes settingsOutcomes pmApiResult ownUserId).1)
  ∧ Event.action Action.initialFetchComplete
        ∉ (doInitialFetch regOutcomes settingsOutcomes pmApiResult ownUserId).1
  ∧ (∀ q l, Event.action (Action.startEventPolling q l)
        ∉ (doInitialFetch regOutcomes settingsOutcomes pmApiResult ownUserId).1) := by
  obtain ⟨e2, he⟩ := promiseAll2_error _ _ e h
  rw [doInitialFetch_error_trace regOutcomes settingsOutcomes pmApiResult ownUserId e2 he]
  refine ⟨rfl, rfl, ?_, ?_, ?_⟩ <;> simp

/-- Witness for C2 at concrete inputs. -/
theorem doInitialFetch_abort_witness :
    (doInitialFetch [Except.error ⟨true⟩] [Except.ok ⟨15⟩]
        (Except.ok ⟨[1], true, true⟩) 4).1 =
      [Event.action Action.initialFetchStart, Event.action Action.logout]
  ∧ (doInitialFetch [Except.error ⟨true⟩] [Except.ok ⟨15⟩]
        (Except.ok ⟨[1], true, true⟩) 4).2 = true
  ∧ Event.action Action.initialFetchComplete
      ∉ (doInitialFetch [Except.error ⟨true⟩] [Except.ok ⟨15⟩]
          (Except.ok ⟨[1], true, true⟩) 4).1 := by
  have h := doInitialFetch_abort [Except.error ⟨true⟩] [Except.ok ⟨15⟩]
    (Except.ok ⟨[1], true, true⟩) 4 ⟨true⟩ (Or.inl rfl)
  exact ⟨h.1, h.2.1, h.2.2.2.1⟩

/-- C6: on a successful bootstrap, a resolved server version below the
recent-PMs threshold triggers exactly one legacy fetch, issued after the
completion signal with the all-private scope, the newest anchor,
numBefore = 100 and numAfter = 0; a version at or above the threshold
triggers none. -/
theorem doInitialFetch_legacy_gate (regOutcomes : List (Except Err InitData))
    (settingsOutcomes : List (Except Err ServerSettings))
    (pmApiResult : Except Err GetMessagesResult) (ownUserId : Nat)
    (d : InitData) (s : ServerSettings)
    (hreg : tryFetchResult regOutcomes = some (Except.ok d))
    (hset : tryFetchResult settingsOutcomes = some (Except.ok s)) :
    (s.zulip_version < MIN_RECENTPMS_SERVER_VERSION →
        getMessagesCallsOf
            (doInitialFetch regOutcomes settingsOutcomes pmApiResult ownUserId).1 =
          [pmFetchCallArgs]
      ∧ ∃ pre post,
          (doInitialFetch regOutcomes settingsOutcomes pmApiResult ownUserId).1 =
            pre ++ post
          ∧ Event.action Action.initialFetchComplete ∈ pre
          ∧ getMessagesCallsOf pre = []
          ∧ getMessagesCallsOf post = [pmFetchCallArgs])
  ∧ (MIN_RECENTPMS_SERVER_VERSION ≤ s.zulip_version →
        getMessagesCallsOf
          (doInitialFetch regOutcomes settingsOutcomes pmApiResult ownUserId).1 = []) := by
  rw [doInitialFetch_ok_trace regOutcomes settingsOutcomes pmApiResult ownUserId d s hreg hset]
  constructor
  · intro hv
    have hd : decide (MIN_RECENTPMS_SERVER_VERSION ≤ s.zulip_version) = false :=
      decide_eq_false (Nat.not_le.mpr hv)
    rw [hd]
    constructor
    · simp only [Bool.not_false, if_pos, getMessagesCallsOf_append,
        getMessagesCallsOf_cons_action, getMessagesCallsOf_nil,
        fetchPrivateMessages_calls]
      simp
    · refine ⟨[Event.action Action.initialFetchStart,
        Event.action (Action.realmInit d s.zulip_version),
        Event.action Action.initialFetchComplete,
        Event.action (Action.startEventPolling d.queue_id d.last_event_id)],
        (fetchPrivateMessages ownUserId pmApiResult).1 ++
          [Event.action Action.sendOutbox, Event.action Action.initNotifications],
        by simp, by simp, ?_, ?_⟩
      · simp [getMessagesCallsOf_cons_action, getMessagesCallsOf_nil]
      · simp only [getMessagesCallsOf_append, fetchPrivateMessages_calls,
          getMessagesCallsOf_cons_action, getMessagesCallsOf_nil]
        simp
  · intro hv
    have hd : decide (MIN_RECENTPMS_SERVER_VERSION ≤ s.zulip_version) = true :=
      decide_eq_true hv
    rw [hd]
    simp [getMessagesCallsOf_append, getMessagesCallsOf_cons_action,
      getMessagesCallsOf_nil, getMessagesCallsOf]

/-- Witness for C6 at concrete inputs, below and above the threshold. -/
theorem doInitialFetch_legacy_gate_witness :
    getMessagesCallsOf
        (doInitialFetch [Except.ok ⟨10, 20⟩] [Except.ok ⟨15⟩]
          (Except.ok ⟨[2], true, true⟩) 5).1 = [pmFetchCallArgs]
  ∧ getMessagesCallsOf
        (doInitialFetch [Except.ok ⟨10, 20⟩] [Except.ok ⟨30⟩]
          (Except.ok ⟨[2], true, true⟩) 5).1 = [] :=
  ⟨((doInitialFetch_legacy_gate [Except.ok ⟨10, 20⟩] [Except.ok ⟨15⟩]
      (Except.ok ⟨[2], true, true⟩) 5 ⟨10, 20⟩ ⟨15⟩ rfl rfl).1 (by decide)).1,
   (doInitialFetch_legacy_gate [Except.ok ⟨10, 20⟩] [Except.ok ⟨30⟩]
      (Except.ok ⟨[2], true, true⟩) 5 ⟨10, 20⟩ ⟨30⟩ rfl rfl).2 (by decide)⟩

/-- C8: no failure is silently swallowed: a failed `fetchMessages` call
emits the error signal and re-raises; a failed legacy fetch re-raises to
its caller; a transient failure in `tryFetch` costs one wait and the loop
retries; every error `tryFetch` re-raises is terminal-class; and an error
propagated out of the bootstrap fan-in surfaces as the logout signal. -/
theorem no_error_silently_swallowed :
    (∀ (fetchArgs : FetchArgs) (ownUserId : Nat) (e : Err),
        Event.action (Action.messageFetchError fetchArgs.narrow e)
          ∈ (fetchMessages fetchArgs ownUserId (Except.error e)).1
      ∧ (fetchMessages fetchArgs ownUserId (Except.error e)).2 = Except.error e)
  ∧ (∀ (ownUserId : Nat) (e : Err),
        (fetchPrivateMessages ownUserId (Except.error e)).2 = Except.error e)
  ∧ (∀ (T : Type) (e : Err) (rest : List (Except Err T)), e.isClientError = false →
        tryFetch (Except.error e :: rest) =
          (tryFetch rest).map (fun p => (p.1, p.2 + 1)))
  ∧ (∀ (T : Type) (l : List (Except Err T)) (e : Err) (n : Nat),
        tryFetch l = some (Except.error e, n) → e.isClientError = true)
  ∧ (∀ regOutcomes settingsOutcomes pmApiResult ownUserId (e : Err),
        promiseAll2 (tryFetchResult regOutcomes) (tryFetchResult settingsOutcomes) =
          some (Except.error e) →
        Event.action Action.logout
          ∈ (doInitialFetch regOutcomes settingsOutcomes pmApiResult ownUserId).1) :=
  ⟨fun fetchArgs ownUserId e => fetchMessages_error_surfaced fetchArgs ownUserId e,
   fun _ _ => rfl,
   fun _ e rest h => tryFetch_transient_step e rest h,
   fun _ l e n h => tryFetch_error_isClientError l e n h,
   fun reg set pm own e h => by
     rw [doInitialFetch_error_trace reg set pm own e h]; simp⟩

/-- Witness for C8 at concrete inputs. -/
theorem no_error_silently_swallowed_witness :
    (Event.action (Action.messageFetchError (Narrow.scope 1) ⟨false⟩)
        ∈ (fetchMessages ⟨Narrow.scope 1, Anchor.messageId 2, 1, 0⟩ 0
            (Except.error ⟨false⟩)).1
      ∧ (fetchMessages ⟨Narrow.scope 1, Anchor.messageId 2, 1, 0⟩ 0
            (Except.error ⟨false⟩)).2 = Except.error ⟨false⟩)
  ∧ tryFetch (Except.error ⟨false⟩ :: ([] : List (Except Err Nat))) =
      (tryFetch ([] : List (Except Err Nat))).map (fun p => (p.1, p.2 + 1))
  ∧ Event.action Action.logout
      ∈ (doInitialFetch [Except.error ⟨true⟩] ([] : List (Except Err ServerSettings))
          (Except.error ⟨false⟩) 0).1 :=
  ⟨no_error_silently_swallowed.1 ⟨Narrow.scope 1, Anchor.messageId 2, 1, 0⟩ 0 ⟨false⟩,
   no_error_silently_swallowed.2.2.1 Nat ⟨false⟩ [] rfl,
   no_error_silently_swallowed.2.2.2.2 [Except.error ⟨true⟩] [] (Except.error ⟨false⟩)
     0 ⟨true⟩ rfl⟩

end Zulip
